import Mathlib

/- Shallow embedding of the bb3 authentication core (src/auth).
   Machine integers are modelled as Nat; time is Unix milliseconds
   (nowMs), with JWT claims in whole seconds (nowMs / 1000), matching the
   sources mixing of Date.now() and Math.floor(Date.now() / 1000). -/

/-- JWT payload as minted by token-service.ts. The fields tenant_id,
email and role are absent (none) on refresh-token payloads; exp is
optional so that a decoded payload lacking the claim is representable. -/
structure JwtPayload where
  sub : String
  tenant_id : Option String
  email : Option String
  role : Option String
  type : String
  iat : Nat
  exp : Option Nat
deriving DecidableEq, Repr

/-- A token value: either a structurally well-formed JWT whose signature
was produced under sigKey over exactly this payload (ideal MAC model of
HS256: a signature verifies under a secret iff it was produced with that
secret over that payload), or a string that does not decode as a JWT. -/
inductive Token where
  | jwt (payload : JwtPayload) (sigKey : String)
  | malformed (raw : String)
deriving DecidableEq, Repr

/-- jsonwebtoken jwt.verify: decode, check the signature under secret,
and reject when an exp claim is present and the clock is at or past it. -/
def jwtVerify (secret : String) (nowSec : Nat) : Token → Option JwtPayload
  | .jwt p k =>
    if k = secret then
      match p.exp with
      | none => some p
      | some e => if nowSec < e then some p else none
    else none
  | .malformed _ => none

/-- jsonwebtoken jwt.decode: no signature and no expiry check. -/
def jwtDecode : Token → Option JwtPayload
  | .jwt p _ => some p
  | .malformed _ => none

/-- TokenService (token-service.ts): two independent signing secrets and
the two fixed TTLs. -/
structure TokenService where
  accessTokenSecret : String
  refreshTokenSecret : String
  accessTokenTTL : Nat := 15 * 60
  refreshTokenTTL : Nat := 30 * 24 * 60 * 60
deriving DecidableEq, Repr

/-- Ideal model of a bcrypt hash: bcrypt.compare succeeds exactly on the
hashed password. -/
structure PwHash where
  pw : String
deriving DecidableEq, Repr

def bcryptHash (password : String) : PwHash := ⟨password⟩

def bcryptCompare (password : String) (h : PwHash) : Bool := h.pw == password

/-- Ideal model of the SHA-256 digest computed by AuthService.hashToken:
collision freedom is modelled by an injective constructor. -/
structure TokenHash where
  preimage : Token
deriving DecidableEq, Repr

def hashToken (t : Token) : TokenHash := ⟨t⟩

/-- JavaScript String.prototype.toLowerCase restricted to the character
level (kernel-reducible, unlike String.toLower). -/
def strToLower (s : String) : String := String.mk (s.data.map Char.toLower)

/-- users table row (the columns the embedded operations read or write). -/
structure UserRow where
  id : String
  tenant_id : String
  email : String
  password_hash : Option PwHash
  display_name : Option String
  username : Option String
  role : String
  status : String
  email_verified : Bool
  two_factor_enabled : Bool
  deleted_at : Option Nat
  last_login_at : Option Nat
  login_count : Nat
deriving DecidableEq, Repr

/-- TokenService.generateAccessToken: short-lived, full claim set,
signed with the access secret. -/
def generateAccessToken (svc : TokenService) (user : UserRow) (nowSec : Nat) : Token :=
  Token.jwt
    { sub := user.id
      tenant_id := some user.tenant_id
      email := some user.email
      role := some user.role
      type := "access"
      iat := nowSec
      exp := some (nowSec + svc.accessTokenTTL) }
    svc.accessTokenSecret

/-- TokenService.generateRefreshToken: long-lived, subject and type only,
signed with the refresh secret. -/
def generateRefreshToken (svc : TokenService) (user : UserRow) (nowSec : Nat) : Token :=
  Token.jwt
    { sub := user.id
      tenant_id := none
      email := none
      role := none
      type := "refresh"
      iat := nowSec
      exp := some (nowSec + svc.refreshTokenTTL) }
    svc.refreshTokenSecret

/-- TokenService.verifyAccessToken: verify under the access secret, then
reject a payload whose type discriminator is not "access". -/
def verifyAccessToken (svc : TokenService) (nowSec : Nat) (token : Token) :
    Option JwtPayload :=
  match jwtVerify svc.accessTokenSecret nowSec token with
  | none => none
  | some p => if p.type = "access" then some p else none

/-- TokenService.verifyRefreshToken: verify under the refresh secret, then
reject a payload whose type discriminator is not "refresh". -/
def verifyRefreshToken (svc : TokenService) (nowSec : Nat) (token : Token) :
    Option JwtPayload :=
  match jwtVerify svc.refreshTokenSecret nowSec token with
  | none => none
  | some p => if p.type = "refresh" then some p else none

/-- TokenService.decodeToken: decode without verification. -/
def decodeToken (token : Token) : Option JwtPayload :=
  jwtDecode token

/-- TokenService.isTokenExpired. The source tests !decoded.exp, which in
JavaScript is true both when the claim is absent and when it is 0. -/
def isTokenExpired (nowSec : Nat) (token : Token) : Bool :=
  match decodeToken token with
  | none => true
  | some p =>
    match p.exp with
    | none => true
    | some 0 => true
    | some (e + 1) => decide (e + 1 < nowSec)

def hexDigit (n : Nat) : Char :=
  if n < 10 then Char.ofNat (48 + n) else Char.ofNat (87 + n)

def natToHexFixed : Nat → Nat → List Char
  | 0, _ => []
  | d + 1, v => natToHexFixed d (v / 16) ++ [hexDigit (v % 16)]

/-- crypto.randomBytes(nbytes).toString("hex"), with the random draw made
explicit as seed: a fixed-length lowercase-hex rendering. -/
def randomBytesHex (nbytes seed : Nat) : String :=
  String.mk (natToHexFixed (2 * nbytes) seed)

def isLowerHexChar (c : Char) : Bool :=
  (decide ('0' ≤ c) && decide (c ≤ '9')) || (decide ('a' ≤ c) && decide (c ≤ 'f'))

theorem natToHexFixed_length (d v : Nat) : (natToHexFixed d v).length = d := by
  induction d generalizing v with
  | zero => rfl
  | succ n ih => simp [natToHexFixed, ih]

theorem hexDigit_lower_hex (n : Nat) (h : n < 16) : isLowerHexChar (hexDigit n) = true := by
  interval_cases n <;> decide

theorem natToHexFixed_lower_hex (d v : Nat) :
    ∀ c ∈ natToHexFixed d v, isLowerHexChar c = true := by
  induction d generalizing v with
  | zero => intro c hc; simp [natToHexFixed] at hc
  | succ n ih =>
    intro c hc
    simp only [natToHexFixed, List.mem_append, List.mem_singleton] at hc
    rcases hc with hc | hc
    · exact ih _ c hc
    · subst hc; exact hexDigit_lower_hex _ (Nat.mod_lt _ (by norm_num))

theorem randomBytesHex_length (nbytes seed : Nat) :
    (randomBytesHex nbytes seed).length = 2 * nbytes := by
  simp [randomBytesHex, String.length, natToHexFixed_length]

/-- tenants table row (the columns registration writes). -/
structure TenantRow where
  id : String
  name : String
  slug : String
  contact_email : String
  plan_type : String
  plan_status : String
deriving DecidableEq, Repr

/-- user_sessions table row. -/
structure SessionRow where
  id : String
  user_id : String
  access_token_hash : TokenHash
  refresh_token_hash : TokenHash
  access_token_expires_at : Nat
  refresh_token_expires_at : Nat
  is_active : Bool
  revoked_at : Option Nat
  revoked_reason : Option String
  last_activity_at : Option Nat
  user_agent : Option String
  ip_address : Option String
  device_type : String
  device_id : Option String
deriving DecidableEq, Repr

/-- user_oauth_providers table row. -/
structure OAuthLinkRow where
  user_id : String
  provider : String
  provider_user_id : String
  provider_username : Option String
  provider_email : Option String
  profile_name : Option String
  last_used_at : Option Nat
deriving DecidableEq, Repr

/-- email_verification_tokens table row. -/
structure EmailVerificationTokenRow where
  user_id : String
  token : String
  email : String
  expires_at : Nat
  used_at : Option Nat
deriving DecidableEq, Repr

/-- password_reset_tokens table row. -/
structure PasswordResetTokenRow where
  user_id : String
  token : String
  expires_at : Nat
  used_at : Option Nat
  ip_address : Option String
  user_agent : Option String
deriving DecidableEq, Repr

/-- gateway_tokens table row. -/
structure GatewayTokenRow where
  id : String
  token : String
  user_id : String
  tenant_id : String
  expires_at : Nat
  revoked_at : Option Nat
deriving DecidableEq, Repr

/-- audit_log row; reason is the metadata.reason entry written on failed
logins. -/
structure AuditRow where
  tenant_id : Option String
  user_id : Option String
  action : String
  status : String
  reason : Option String
  ip_address : Option String
  user_agent : Option String
deriving DecidableEq, Repr

/-- A requested outbound email (the core only decides that and what to
send; delivery is an external collaborator). -/
structure SentEmail where
  kind : String
  dest : String
  token : String
deriving DecidableEq, Repr

/-- The relational store state. -/
structure Db where
  tenants : List TenantRow
  users : List UserRow
  oauth_links : List OAuthLinkRow
  sessions : List SessionRow
  email_verification_tokens : List EmailVerificationTokenRow
  password_reset_tokens : List PasswordResetTokenRow
  gateway_tokens : List GatewayTokenRow
  audit_log : List AuditRow
  sent_emails : List SentEmail
deriving DecidableEq, Repr

def exOk {ε α : Type} : Except ε α → Bool
  | .ok _ => true
  | .error _ => false

def jsWhitespace (c : Char) : Bool :=
  c = ' ' || c = '\t' || c = '\n' || c = '\r' || c = Char.ofNat 11 || c = Char.ofNat 12

/-- AuthService.isValidEmail. The source regex demands: no whitespace,
exactly one at-sign with a nonempty local part, and a dot strictly inside
the part after the at-sign. -/
def isValidEmail (email : String) : Bool :=
  let cs := email.data
  let localPart := cs.takeWhile (fun c => c ≠ '@')
  let domain := (cs.dropWhile (fun c => c ≠ '@')).drop 1
  cs.all (fun c => !jsWhitespace c) &&
  cs.count '@' == 1 &&
  !localPart.isEmpty &&
  ((domain.drop 1).dropLast).contains '.'

/-- The symbol class of the password-strength regex; the brace characters
are written by code point. -/
def passwordSymbols : List Char :=
  ['!', '@', '#', '$', '%', '^', '&', '*', '(', ')', ',', '.', '?', '"', ':',
   Char.ofNat 123, Char.ofNat 125, '|', '<', '>']

/-- AuthService.isValidPassword: at least 8 characters plus one character
of each of the four classes. -/
def isValidPassword (password : String) : Bool :=
  let cs := password.data
  decide (8 ≤ cs.length) &&
  cs.any (fun c => decide ('A' ≤ c) && decide (c ≤ 'Z')) &&
  cs.any (fun c => decide ('a' ≤ c) && decide (c ≤ 'z')) &&
  cs.any (fun c => decide ('0' ≤ c) && decide (c ≤ '9')) &&
  cs.any (fun c => passwordSymbols.contains c)

/-- AuthService.generateTenantSlug base: local part, lowercased, with
every character outside [a-z0-9] replaced by a dash. -/
def slugBase (email : String) : String :=
  String.mk ((email.data.takeWhile (fun c => c ≠ '@')).map (fun c =>
    let lc := c.toLower
    if (decide ('a' ≤ lc) && decide (lc ≤ 'z')) || (decide ('0' ≤ lc) && decide (lc ≤ '9'))
    then lc else '-'))

def generateTenantSlug (email slugRand : String) : String :=
  slugBase email ++ "-" ++ slugRand

def listContainsInfix (needle : List Char) : List Char → Bool
  | [] => needle.isEmpty
  | c :: rest => needle.isPrefixOf (c :: rest) || listContainsInfix needle rest

def containsCI (hay need : String) : Bool :=
  listContainsInfix (strToLower need).data (strToLower hay).data

/-- AuthService.parseDeviceType. -/
def parseDeviceType : Option String → String
  | none => "unknown"
  | some ua =>
    if containsCI ua "mobile" then "mobile"
    else if containsCI ua "tablet" || containsCI ua "ipad" then "tablet"
    else if containsCI ua "electron" then "desktop"
    else "web"

/-- AuthService.createSession: mint the JWT pair, store only their hashes
with the computed expiries; sessionId stands for the store-generated row
id. The raw pair is returned exactly once. -/
def createSession (svc : TokenService) (db : Db) (nowMs : Nat) (user : UserRow)
    (ipAddress userAgent deviceId : Option String) (sessionId : String) :
    (Token × Token) × Db :=
  let accessToken := generateAccessToken svc user (nowMs / 1000)
  let refreshToken := generateRefreshToken svc user (nowMs / 1000)
  let row : SessionRow :=
    { id := sessionId
      user_id := user.id
      access_token_hash := hashToken accessToken
      refresh_token_hash := hashToken refreshToken
      access_token_expires_at := nowMs + 15 * 60 * 1000
      refresh_token_expires_at := nowMs + 30 * 24 * 60 * 60 * 1000
      is_active := true
      revoked_at := none
      revoked_reason := none
      last_activity_at := none
      user_agent := userAgent
      ip_address := ipAddress
      device_type := parseDeviceType userAgent
      device_id := deviceId }
  ((accessToken, refreshToken), { db with sessions := db.sessions ++ [row] })

/-- The login user lookup: by lowercased email, excluding soft-deleted
rows. -/
def findUserByEmail (db : Db) (email : String) : Option UserRow :=
  db.users.find? (fun u => u.email == strToLower email && u.deleted_at.isNone)

/-- The audit row written on a failed login attempt, with the specific
reason in metadata. -/
def auditFailure (tenantId userId : Option String) (reason : String)
    (ip ua : Option String) : AuditRow :=
  { tenant_id := tenantId
    user_id := userId
    action := "user.login_failed"
    status := "failure"
    reason := some reason
    ip_address := ip
    user_agent := ua }

/-- AuthService.loginWithEmail (auth-service.ts 304-410). -/
def loginWithEmail (svc : TokenService) (db : Db) (nowMs : Nat) (sessionId : String)
    (email password : String) (ipAddress userAgent deviceId : Option String) :
    Except String (UserRow × TenantRow × Token × Token) × Db :=
  match findUserByEmail db email with
  | none =>
    (.error "Invalid email or password",
     { db with audit_log := db.audit_log ++
        [auditFailure none none "user_not_found" ipAddress userAgent] })
  | some user =>
    if user.status ≠ "active" then
      (.error "Account suspended",
       { db with audit_log := db.audit_log ++
          [auditFailure (some user.tenant_id) (some user.id) "account_suspended"
            ipAddress userAgent] })
    else
      match user.password_hash with
      | none => (.error "Please login with OAuth provider", db)
      | some ph =>
        if !bcryptCompare password ph then
          (.error "Invalid email or password",
           { db with audit_log := db.audit_log ++
              [auditFailure (some user.tenant_id) (some user.id) "invalid_password"
                ipAddress userAgent] })
        else if user.two_factor_enabled then
          (.error "2FA not yet implemented", db)
        else
          match db.tenants.find? (fun t => t.id == user.tenant_id) with
          | none => (.error "Tenant row missing", db)
          | some tenant =>
            let db1 := { db with users := db.users.map (fun u2 =>
                if u2.id == user.id then
                  { u2 with last_login_at := some nowMs, login_count := u2.login_count + 1 }
                else u2) }
            let r := createSession svc db1 nowMs user ipAddress userAgent deviceId sessionId
            let db3 := { r.2 with audit_log := r.2.audit_log ++
              [{ tenant_id := some user.tenant_id, user_id := some user.id
                 action := "user.login", status := "success", reason := none
                 ip_address := ipAddress, user_agent := userAgent }] }
            (.ok (user, tenant, r.1.1, r.1.2), db3)

/-- The session-with-user join used by refreshAccessToken and
validateAccessToken; a session qualifies only when a users row with its
user_id exists. -/
def joinUser (db : Db) (s : SessionRow) : Option (SessionRow × UserRow) :=
  (db.users.find? (fun u => u.id == s.user_id)).map (fun u => (s, u))

def findSessionUser (db : Db) (p : SessionRow → Bool) : Option (SessionRow × UserRow) :=
  db.sessions.findSome? (fun s => if p s then joinUser db s else none)

/-- AuthService.refreshAccessToken (auth-service.ts 507-556): look up by
refresh hash among active unexpired sessions, mint a new pair and rotate
the stored hashes and expiries in place. -/
def refreshAccessToken (svc : TokenService) (db : Db) (nowMs : Nat)
    (refreshToken : Token) : Except String (Token × Token) × Db :=
  let refreshTokenHash := hashToken refreshToken
  match findSessionUser db (fun s =>
      s.refresh_token_hash == refreshTokenHash && s.is_active &&
      decide (nowMs < s.refresh_token_expires_at)) with
  | none => (.error "Invalid or expired refresh token", db)
  | some (session, user) =>
    let newAccessToken := generateAccessToken svc user (nowMs / 1000)
    let newRefreshToken := generateRefreshToken svc user (nowMs / 1000)
    let db1 := { db with sessions := db.sessions.map (fun r =>
        if r.id == session.id then
          { r with
            access_token_hash := hashToken newAccessToken
            refresh_token_hash := hashToken newRefreshToken
            access_token_expires_at := nowMs + 15 * 60 * 1000
            refresh_token_expires_at := nowMs + 30 * 24 * 60 * 60 * 1000
            last_activity_at := some nowMs }
        else r) }
    (.ok (newAccessToken, newRefreshToken), db1)

/-- AuthService.validateAccessToken (auth-service.ts 561-593): stateless
JWT verification first, then the stateful lookup of an active unexpired
session whose stored hash matches the presented token. -/
def validateAccessToken (svc : TokenService) (db : Db) (nowMs : Nat)
    (accessToken : Token) : Except String UserRow × Db :=
  match verifyAccessToken svc (nowMs / 1000) accessToken with
  | none => (.error "Invalid access token", db)
  | some _ =>
    let accessTokenHash := hashToken accessToken
    match findSessionUser db (fun s =>
        s.access_token_hash == accessTokenHash && s.is_active &&
        decide (nowMs < s.access_token_expires_at)) with
    | none => (.error "Session not found or expired", db)
    | some (session, user) =>
      (.ok user,
       { db with sessions := db.sessions.map (fun r =>
           if r.id == session.id then { r with last_activity_at := some nowMs } else r) })

/-- AuthService.logout (auth-service.ts 598-605): revoke every session
whose stored access hash matches the presented token. -/
def logout (db : Db) (nowMs : Nat) (accessToken : Token) : Db :=
  let h := hashToken accessToken
  { db with sessions := db.sessions.map (fun s =>
      if s.access_token_hash == h then
        { s with is_active := false, revoked_at := some nowMs,
                 revoked_reason := some "user_logout" }
      else s) }

/-- AuthService.requestPasswordReset (auth-service.ts 684-706): silently
return for an unknown email; otherwise store a reset token and request the
reset email. The user lookup here has no deleted_at filter. -/
def requestPasswordReset (db : Db) (nowMs : Nat) (resetToken : String)
    (email : String) (ipAddress userAgent : Option String) : Db :=
  match db.users.find? (fun u => u.email == strToLower email) with
  | none => db
  | some user =>
    { db with
      password_reset_tokens := db.password_reset_tokens ++
        [{ user_id := user.id, token := resetToken,
           expires_at := nowMs + 60 * 60 * 1000, used_at := none,
           ip_address := ipAddress, user_agent := userAgent }]
      sent_emails := db.sent_emails ++
        [{ kind := "password_reset", dest := user.email, token := resetToken }] }

structure HttpResp where
  status : Nat
  body : String
deriving DecidableEq, Repr

/-- POST /reset-password/request handler (routes.ts 328-337). The service
call has no throwing path in the embedding (store writes and outbound
email delivery are external collaborators), so the catch branch of the
handler is unreachable and the uniform success body is always produced. -/
def resetPasswordRequestRoute (db : Db) (nowMs : Nat) (resetToken : String)
    (email : String) (ipAddress userAgent : Option String) : HttpResp × Db :=
  (⟨200, "If the email exists, a reset link has been sent"⟩,
   requestPasswordReset db nowMs resetToken email ipAddress userAgent)

/-- AuthService.exchangeForGatewayToken (auth-service.ts 814-851): verify
the JWT statelessly, then mint and store a random 64-hex gateway token
with a one-hour expiry. No session lookup is performed. -/
def exchangeForGatewayToken (svc : TokenService) (db : Db) (nowMs seed : Nat)
    (gatewayTokenId : String) (accessToken : Token) :
    Except String (String × Nat) × Db :=
  match verifyAccessToken svc (nowMs / 1000) accessToken with
  | none => (.error "Invalid access token", db)
  | some payload =>
    let gatewayToken := randomBytesHex 32 seed
    let expiresAt := nowMs + 60 * 60 * 1000
    let row : GatewayTokenRow :=
      { id := gatewayTokenId, token := gatewayToken, user_id := payload.sub,
        tenant_id := payload.tenant_id.getD "", expires_at := expiresAt,
        revoked_at := none }
    (.ok (gatewayToken, expiresAt),
     { db with
        gateway_tokens := db.gateway_tokens ++ [row]
        audit_log := db.audit_log ++
          [{ tenant_id := payload.tenant_id, user_id := some payload.sub,
             action := "gateway_token.created", status := "success",
             reason := none, ip_address := none, user_agent := none }] })

/-- The three inserts of the registration transaction; an oracle over
TxStep models which store insert fails before commit. -/
inductive TxStep where
  | tenantIns
  | userIns
  | tokenIns
deriving DecidableEq, Repr

/-- The identifiers and random draws an operation consumes, made explicit:
store-generated row ids, the slug randomness and the secure one-time
token. -/
structure FreshIds where
  tenantId : String
  userId : String
  sessionId : String
  slugRand : String
  secureToken : String
deriving DecidableEq, Repr

/-- AuthService.registerWithEmail (auth-service.ts 69-146): validation,
duplicate-email check, then one transaction inserting tenant, user and
verification token; a failing insert rolls the whole transaction back.
After commit the verification email is requested fire-and-forget
(emailSendFails = true models a rejected send, which is only logged),
then a session is minted and an audit row appended. -/
def registerWithEmail (svc : TokenService) (db : Db) (nowMs : Nat)
    (ids : FreshIds) (oracle : TxStep → Bool) (emailSendFails : Bool)
    (email password : String) (displayName : Option String)
    (ipAddress userAgent : Option String) :
    Except String (UserRow × TenantRow × Token × Token) × Db :=
  if !isValidEmail email then (.error "Invalid email format", db)
  else if !isValidPassword password then
    (.error "Password must be at least 8 characters with uppercase, lowercase, number, and symbol", db)
  else if (db.users.find? (fun u => u.email == strToLower email)).isSome then
    (.error "Email already registered", db)
  else if oracle .tenantIns then (.error "tenant insert failed", db)
  else
    let tenant : TenantRow :=
      { id := ids.tenantId, name := email,
        slug := generateTenantSlug email ids.slugRand,
        contact_email := email, plan_type := "free", plan_status := "trial" }
    if oracle .userIns then (.error "user insert failed", db)
    else
      let user : UserRow :=
        { id := ids.userId, tenant_id := tenant.id, email := strToLower email,
          password_hash := some (bcryptHash password),
          display_name := displayName, username := none, role := "owner",
          status := "active", email_verified := false,
          two_factor_enabled := false, deleted_at := none,
          last_login_at := none, login_count := 0 }
      if oracle .tokenIns then (.error "verification token insert failed", db)
      else
        let evt : EmailVerificationTokenRow :=
          { user_id := user.id, token := ids.secureToken, email := email,
            expires_at := nowMs + 24 * 60 * 60 * 1000, used_at := none }
        let db1 : Db :=
          { db with
            tenants := db.tenants ++ [tenant]
            users := db.users ++ [user]
            email_verification_tokens := db.email_verification_tokens ++ [evt] }
        let db2 := if emailSendFails then db1
          else { db1 with sent_emails := db1.sent_emails ++
            [{ kind := "verification", dest := email, token := ids.secureToken }] }
        let r := createSession svc db2 nowMs user ipAddress userAgent none ids.sessionId
        let db4 := { r.2 with audit_log := r.2.audit_log ++
          [{ tenant_id := some tenant.id, user_id := some user.id,
             action := "user.registered", status := "success", reason := none,
             ip_address := none, user_agent := none }] }
        (.ok (user, tenant, r.1.1, r.1.2), db4)

/-- AuthService.loginExistingOAuthUser (auth-service.ts 415-453). -/
def loginExistingOAuthUser (svc : TokenService) (db : Db) (nowMs : Nat)
    (sessionId userId provider : String) :
    Except String (UserRow × TenantRow × Token × Token) × Db :=
  match db.users.find? (fun u => u.id == userId) with
  | none => (.error "OAuth user row missing", db)
  | some user =>
    match db.tenants.find? (fun t => t.id == user.tenant_id) with
    | none => (.error "Tenant row missing", db)
    | some tenant =>
      let db1 := { db with oauth_links := db.oauth_links.map (fun l =>
          if l.user_id == userId && l.provider == provider then
            { l with last_used_at := some nowMs }
          else l) }
      let r := createSession svc db1 nowMs user none none none sessionId
      let db3 := { r.2 with audit_log := r.2.audit_log ++
        [{ tenant_id := some user.tenant_id, user_id := some user.id,
           action := "user.login", status := "success", reason := none,
           ip_address := none, user_agent := none }] }
      (.ok (user, tenant, r.1.1, r.1.2), db3)

def oauthDefaultEmail (provider providerUserId : String) : String :=
  provider ++ "-" ++ providerUserId ++ "@oauth.local"

/-- The provider-link lookup opening registerWithOAuth. -/
def findLink (db : Db) (provider providerUserId : String) : Option OAuthLinkRow :=
  db.oauth_links.find? (fun l =>
    l.provider == provider && l.provider_user_id == providerUserId)

/-- The email fallback of registerWithOAuth: a users row matching the
provider-asserted email, when one was asserted. -/
def oauthEmailUser (db : Db) (providerEmail : Option String) : Option UserRow :=
  match providerEmail with
  | none => none
  | some e => db.users.find? (fun u => u.email == strToLower e)

/-- AuthService.registerWithOAuth (auth-service.ts 151-295): an existing
(provider, provider_user_id) link logs its user in; otherwise a user
matching the asserted email gets the provider linked to it; otherwise a
new tenant and user are created, the email marked verified exactly when
the provider asserted one. -/
def registerWithOAuth (svc : TokenService) (db : Db) (nowMs : Nat)
    (ids : FreshIds) (provider providerUserId : String)
    (providerUsername providerEmail profileName : Option String) :
    Except String (UserRow × TenantRow × Token × Token) × Db :=
  match findLink db provider providerUserId with
  | some link => loginExistingOAuthUser svc db nowMs ids.sessionId link.user_id provider
  | none =>
    match oauthEmailUser db providerEmail with
    | some user =>
      match db.tenants.find? (fun t => t.id == user.tenant_id) with
      | none => (.error "Tenant row missing", db)
      | some tenant =>
        let link : OAuthLinkRow :=
          { user_id := user.id, provider := provider,
            provider_user_id := providerUserId,
            provider_username := providerUsername,
            provider_email := providerEmail, profile_name := profileName,
            last_used_at := none }
        let db1 := { db with oauth_links := db.oauth_links ++ [link] }
        let r := createSession svc db1 nowMs user none none none ids.sessionId
        let db3 := { r.2 with audit_log := r.2.audit_log ++
          [{ tenant_id := some tenant.id, user_id := some user.id,
             action := "user.oauth_linked", status := "success", reason := none,
             ip_address := none, user_agent := none }] }
        (.ok (user, tenant, r.1.1, r.1.2), db3)
    | none =>
      let email := providerEmail.getD (oauthDefaultEmail provider providerUserId)
      let tenant : TenantRow :=
        { id := ids.tenantId, name := email,
          slug := generateTenantSlug email ids.slugRand,
          contact_email := email, plan_type := "free", plan_status := "trial" }
      let displayName : String :=
        ((profileName.orElse (fun _ => providerUsername)).getD
          ("User-" ++ String.mk (providerUserId.data.take 8)))
      let user : UserRow :=
        { id := ids.userId, tenant_id := tenant.id, email := strToLower email,
          password_hash := none, display_name := some displayName,
          username := providerUsername, role := "owner", status := "active",
          email_verified := providerEmail.isSome,
          two_factor_enabled := false, deleted_at := none,
          last_login_at := none, login_count := 0 }
      let link : OAuthLinkRow :=
        { user_id := user.id, provider := provider,
          provider_user_id := providerUserId,
          provider_username := providerUsername,
          provider_email := providerEmail, profile_name := profileName,
          last_used_at := none }
      let db1 := { db with
        tenants := db.tenants ++ [tenant]
        users := db.users ++ [user]
        oauth_links := db.oauth_links ++ [link] }
      let r := createSession svc db1 nowMs user none none none ids.sessionId
      let db3 := { r.2 with audit_log := r.2.audit_log ++
        [{ tenant_id := some tenant.id, user_id := some user.id,
           action := "user.registered", status := "success", reason := none,
           ip_address := none, user_agent := none }] }
      (.ok (user, tenant, r.1.1, r.1.2), db3)

/-- The cache behind the rate limiter. reachable = false models a
configured Redis whose server cannot be reached: ioredis then rejects
each command after its retries are exhausted. -/
structure RedisState where
  reachable : Bool
  counters : List (String × Nat)
  ttls : List (String × Nat)
deriving DecidableEq, Repr

def redisGetCounter (r : RedisState) (key : String) : Nat :=
  match r.counters.find? (fun kv => kv.1 == key) with
  | some kv => kv.2
  | none => 0

/-- ioredis incr: rejects when the server is unreachable, otherwise
increments and returns the new value. -/
def redisIncr (r : RedisState) (key : String) : Except String (Nat × RedisState) :=
  if !r.reachable then .error "Connection is closed"
  else
    let n := redisGetCounter r key + 1
    .ok (n, { r with counters := (key, n) :: r.counters.filter (fun kv => kv.1 != key) })

/-- ioredis expire: rejects when the server is unreachable. -/
def redisExpire (r : RedisState) (key : String) (seconds : Nat) :
    Except String RedisState :=
  if !r.reachable then .error "Connection is closed"
  else .ok { r with ttls := (key, seconds) :: r.ttls.filter (fun kv => kv.1 != key) }

/-- AuthRateLimiter.checkLoginRateLimit: allow when Redis is not
configured (redis = none); otherwise incr the windowed counter, lazily
set the TTL on the first increment, and allow while the count is at most
5. An error from incr or expire propagates to the caller. -/
def checkLoginRateLimit (redis : Option RedisState) (ipAddress : String) :
    Except String (Bool × Option RedisState) :=
  match redis with
  | none => .ok (true, none)
  | some r =>
    match redisIncr r ("rate:login:" ++ ipAddress) with
    | .error e => .error e
    | .ok (current, r1) =>
      match (if current == 1
             then redisExpire r1 ("rate:login:" ++ ipAddress) (15 * 60)
             else .ok r1) with
      | .error e => .error e
      | .ok r2 => .ok (decide (current ≤ 5), some r2)

/-- AuthRateLimiter.checkRegistrationRateLimit: 3 per hour per IP. -/
def checkRegistrationRateLimit (redis : Option RedisState) (ipAddress : String) :
    Except String (Bool × Option RedisState) :=
  match redis with
  | none => .ok (true, none)
  | some r =>
    match redisIncr r ("rate:register:" ++ ipAddress) with
    | .error e => .error e
    | .ok (current, r1) =>
      match (if current == 1
             then redisExpire r1 ("rate:register:" ++ ipAddress) (60 * 60)
             else .ok r1) with
      | .error e => .error e
      | .ok r2 => .ok (decide (current ≤ 3), some r2)

/-- AuthRateLimiter.checkPasswordResetRateLimit: 3 per hour per IP. -/
def checkPasswordResetRateLimit (redis : Option RedisState) (ipAddress : String) :
    Except String (Bool × Option RedisState) :=
  match redis with
  | none => .ok (true, none)
  | some r =>
    match redisIncr r ("rate:password-reset:" ++ ipAddress) with
    | .error e => .error e
    | .ok (current, r1) =>
      match (if current == 1
             then redisExpire r1 ("rate:password-reset:" ++ ipAddress) (60 * 60)
             else .ok r1) with
      | .error e => .error e
      | .ok r2 => .ok (decide (current ≤ 3), some r2)

/-- AuthRateLimiter.checkEmailVerificationRateLimit: 5 per hour per
user. -/
def checkEmailVerificationRateLimit (redis : Option RedisState) (userId : String) :
    Except String (Bool × Option RedisState) :=
  match redis with
  | none => .ok (true, none)
  | some r =>
    match redisIncr r ("rate:email-verify:" ++ userId) with
    | .error e => .error e
    | .ok (current, r1) =>
      match (if current == 1
             then redisExpire r1 ("rate:email-verify:" ++ userId) (60 * 60)
             else .ok r1) with
      | .error e => .error e
      | .ok r2 => .ok (decide (current ≤ 5), some r2)

theorem findSome?_exists {α β : Type} {f : α → Option β} {l : List α} {b : β}
    (h : l.findSome? f = some b) : ∃ a, a ∈ l ∧ f a = some b := by
  induction l with
  | nil => simp at h
  | cons x xs ih =>
    rw [List.findSome?_cons] at h
    cases hx : f x with
    | some y =>
      rw [hx] at h
      exact ⟨x, List.mem_cons_self x xs, by rw [hx]; exact h⟩
    | none =>
      rw [hx] at h
      obtain ⟨a, ha, hfa⟩ := ih h
      exact ⟨a, List.mem_cons_of_mem _ ha, hfa⟩

theorem findSessionUser_sound {db : Db} {p : SessionRow → Bool} {s : SessionRow}
    {u : UserRow} (h : findSessionUser db p = some (s, u)) :
    s ∈ db.sessions ∧ p s = true ∧
      db.users.find? (fun x => x.id == s.user_id) = some u := by
  obtain ⟨a, ha, hfa⟩ := findSome?_exists h
  by_cases hp : p a = true
  · rw [if_pos hp] at hfa
    unfold joinUser at hfa
    obtain ⟨u0, hu0, heq⟩ := Option.map_eq_some'.mp hfa
    cases heq
    exact ⟨ha, hp, hu0⟩
  · rw [if_neg hp] at hfa
    exact absurd hfa (by simp)

theorem find?_eq_some_of_unique {α : Type} {p : α → Bool} {l : List α} {a : α}
    (ha : a ∈ l) (hpa : p a = true) (huniq : ∀ b ∈ l, p b = true → b = a) :
    l.find? p = some a := by
  induction l with
  | nil => simp at ha
  | cons x xs ih =>
    rcases List.mem_cons.mp ha with rfl | hmem
    · simp [List.find?, hpa]
    · by_cases hx : p x = true
      · have hxa := huniq x (List.mem_cons_self x xs) hx
        subst hxa
        simp [List.find?, hx]
      · simp only [List.find?, Bool.not_eq_true] at hx ⊢
        rw [hx]
        exact ih hmem (fun b hb hpb => huniq b (List.mem_cons_of_mem _ hb) hpb)

/- Concrete fixtures used by witnesses and counterexamples. -/

def svcW : TokenService :=
  { accessTokenSecret := "access-secret-w", refreshTokenSecret := "refresh-secret-w" }

def userW : UserRow :=
  { id := "u1", tenant_id := "t1", email := "user@example.com",
    password_hash := some (bcryptHash "Sup3r$ecret"), display_name := some "User One",
    username := none, role := "owner", status := "active", email_verified := false,
    two_factor_enabled := false, deleted_at := none, last_login_at := none,
    login_count := 0 }

def tenantW : TenantRow :=
  { id := "t1", name := "user@example.com", slug := "user-abc",
    contact_email := "user@example.com", plan_type := "free", plan_status := "trial" }

def accessTokW : Token := generateAccessToken svcW userW 0

def refreshTokW : Token := generateRefreshToken svcW userW 0

def sessW : SessionRow :=
  { id := "s1", user_id := "u1", access_token_hash := hashToken accessTokW,
    refresh_token_hash := hashToken refreshTokW,
    access_token_expires_at := 900000, refresh_token_expires_at := 2592000000,
    is_active := true, revoked_at := none, revoked_reason := none,
    last_activity_at := none, user_agent := none, ip_address := none,
    device_type := "unknown", device_id := none }

def emptyDb : Db :=
  { tenants := [], users := [], oauth_links := [], sessions := [],
    email_verification_tokens := [], password_reset_tokens := [],
    gateway_tokens := [], audit_log := [], sent_emails := [] }

def dbW : Db := { emptyDb with tenants := [tenantW], users := [userW], sessions := [sessW] }

def revokedSessW : SessionRow :=
  { sessW with
    is_active := false
    revoked_at := some 500
    revoked_reason := some "user_logout" }

def revokedDbW : Db :=
  { emptyDb with users := [userW], sessions := [revokedSessW] }

def downRedisW : RedisState := { reachable := false, counters := [], ttls := [] }

/-- C3: the password-reset request endpoint produces the same response
for any two store states, in particular for one in which a user with the
given email exists and one in which none does: the caller cannot
distinguish the two runs. -/
theorem requestPasswordReset_uniform_response (db1 db2 : Db) (now1 now2 : Nat)
    (t1 t2 email : String) (ip1 ua1 ip2 ua2 : Option String) :
    (resetPasswordRequestRoute db1 now1 t1 email ip1 ua1).1 =
      (resetPasswordRequestRoute db2 now2 t2 email ip2 ua2).1 := rfl

/-- C6: token classes are not interchangeable: a freshly minted refresh
token never verifies as an access token and vice versa, and each verifier
rejects any JWT whose signature is not under its own secret or whose type
discriminator differs from its class. -/
theorem token_class_separation (svc : TokenService) (u : UserRow)
    (mintSec nowSec : Nat) :
    verifyAccessToken svc nowSec (generateRefreshToken svc u mintSec) = none
  ∧ verifyRefreshToken svc nowSec (generateAccessToken svc u mintSec) = none
  ∧ (∀ p k, (k ≠ svc.accessTokenSecret ∨ p.type ≠ "access") →
      verifyAccessToken svc nowSec (Token.jwt p k) = none)
  ∧ (∀ p k, (k ≠ svc.refreshTokenSecret ∨ p.type ≠ "refresh") →
      verifyRefreshToken svc nowSec (Token.jwt p k) = none) := by
  refine ⟨?_, ?_, ?_, ?_⟩
  · unfold verifyAccessToken generateRefreshToken jwtVerify
    by_cases hk : svc.refreshTokenSecret = svc.accessTokenSecret
    · by_cases hlt : nowSec < mintSec + svc.refreshTokenTTL
      · simp [hk, hlt]
      · simp [hk, hlt]
    · simp [hk]
  · unfold verifyRefreshToken generateAccessToken jwtVerify
    by_cases hk : svc.accessTokenSecret = svc.refreshTokenSecret
    · by_cases hlt : nowSec < mintSec + svc.accessTokenTTL
      · simp [hk, hlt]
      · simp [hk, hlt]
    · simp [hk]
  · intro p k hk
    unfold verifyAccessToken jwtVerify
    rcases hk with hk | hk
    · simp [hk]
    · by_cases h2 : k = svc.accessTokenSecret
      · cases hexp : p.exp with
        | none => simp [h2, hexp, hk]
        | some e =>
          by_cases hlt : nowSec < e
          · simp [h2, hexp, hlt, hk]
          · simp [h2, hexp, hlt]
      · simp [h2]
  · intro p k hk
    unfold verifyRefreshToken jwtVerify
    rcases hk with hk | hk
    · simp [hk]
    · by_cases h2 : k = svc.refreshTokenSecret
      · cases hexp : p.exp with
        | none => simp [h2, hexp, hk]
        | some e =>
          by_cases hlt : nowSec < e
          · simp [h2, hexp, hlt, hk]
          · simp [h2, hexp, hlt]
      · simp [h2]

theorem token_class_separation_witness :
    verifyAccessToken svcW 1 (generateRefreshToken svcW userW 0) = none ∧
    verifyRefreshToken svcW 1 (generateAccessToken svcW userW 0) = none ∧
    verifyAccessToken svcW 1 (Token.jwt (JwtPayload.mk "u1" none none none "refresh" 0 (some 99)) svcW.accessTokenSecret) = none := by
  refine ⟨(token_class_separation svcW userW 0 1).1,
          (token_class_separation svcW userW 0 1).2.1,
          (token_class_separation svcW userW 0 1).2.2.1 _ _ (Or.inr (by decide))⟩

/-- C10 (amended): isTokenExpired is total; it reports true for an
undecodable token, for a decoded payload without an exp claim, and — via
JavaScript falsiness of 0 — for an exp claim equal to 0; for a positive
exp it reports expired exactly when exp is strictly below the current
whole second, so a token whose positive exp equals the current second is
not expired. -/
theorem isTokenExpired_spec :
    (∀ nowSec tok, decodeToken tok = none → isTokenExpired nowSec tok = true)
  ∧ (∀ nowSec tok p, decodeToken tok = some p → p.exp = none →
      isTokenExpired nowSec tok = true)
  ∧ (∀ nowSec tok p, decodeToken tok = some p → p.exp = some 0 →
      isTokenExpired nowSec tok = true)
  ∧ (∀ nowSec tok p e, decodeToken tok = some p → p.exp = some (e + 1) →
      (isTokenExpired nowSec tok = true ↔ e + 1 < nowSec))
  ∧ (∀ nowSec tok p e, decodeToken tok = some p → p.exp = some e → 0 < e →
      e = nowSec → isTokenExpired nowSec tok = false) := by
  refine ⟨?_, ?_, ?_, ?_, ?_⟩
  · intro nowSec tok h
    unfold isTokenExpired
    rw [h]
  · intro nowSec tok p h he
    unfold isTokenExpired
    rw [h]
    simp [he]
  · intro nowSec tok p h he
    unfold isTokenExpired
    rw [h]
    simp [he]
  · intro nowSec tok p e h he
    unfold isTokenExpired
    rw [h]
    simp [he]
  · intro nowSec tok p e h he hpos hnow
    unfold isTokenExpired
    rw [h]
    simp only [he]
    cases e with
    | zero => exact absurd hpos (by omega)
    | succ n =>
      subst hnow
      simp [Nat.lt_irrefl]

def zeroExpPayloadW : JwtPayload :=
  { sub := "u1", tenant_id := none, email := none, role := none,
    type := "access", iat := 0, exp := some 0 }

def zeroExpTokenW : Token := Token.jwt zeroExpPayloadW "k"

/-- C10 counterexample: a decodable token carrying the exp claim 0 is
reported expired at second 0 although its exp is not strictly below the
current time, because the source tests JavaScript falsiness of the claim
rather than its presence. -/
theorem isTokenExpired_zero_exp_counterexample :
    decodeToken zeroExpTokenW = some zeroExpPayloadW ∧
    zeroExpPayloadW.exp = some 0 ∧
    isTokenExpired 0 zeroExpTokenW = true ∧
    ¬ ((0 : Nat) < 0) := ⟨rfl, rfl, rfl, by decide⟩

theorem isTokenExpired_spec_witness :
    isTokenExpired 0 (Token.malformed "invalid") = true ∧
    isTokenExpired 901 accessTokW = true ∧
    isTokenExpired 900 accessTokW = false := by
  refine ⟨isTokenExpired_spec.1 0 (Token.malformed "invalid") rfl, ?_, ?_⟩
  · exact (isTokenExpired_spec.2.2.2.1 901 accessTokW
      (JwtPayload.mk "u1" (some "t1") (some "user@example.com") (some "owner") "access" 0 (some 900))
      899 rfl rfl).mpr (by decide)
  · exact isTokenExpired_spec.2.2.2.2 900 accessTokW
      (JwtPayload.mk "u1" (some "t1") (some "user@example.com") (some "owner") "access" 0 (some 900))
      900 rfl rfl (by decide) rfl

/-- C8 (amended): every rate-limit check fails open — returns true — when
no cache is configured (redis = none, the source's null field); but when a
cache is configured and unreachable, the rejection from incr propagates to
the caller instead of allowing the request. -/
theorem rateLimiter_fail_open :
    (∀ ip, checkLoginRateLimit none ip = .ok (true, none))
  ∧ (∀ ip, checkRegistrationRateLimit none ip = .ok (true, none))
  ∧ (∀ ip, checkPasswordResetRateLimit none ip = .ok (true, none))
  ∧ (∀ uid, checkEmailVerificationRateLimit none uid = .ok (true, none))
  ∧ (∀ r ip, r.reachable = false →
      checkLoginRateLimit (some r) ip = .error "Connection is closed")
  ∧ (∀ r ip, r.reachable = false →
      checkRegistrationRateLimit (some r) ip = .error "Connection is closed")
  ∧ (∀ r ip, r.reachable = false →
      checkPasswordResetRateLimit (some r) ip = .error "Connection is closed")
  ∧ (∀ r uid, r.reachable = false →
      checkEmailVerificationRateLimit (some r) uid = .error "Connection is closed") := by
  refine ⟨fun ip => rfl, fun ip => rfl, fun ip => rfl, fun uid => rfl, ?_, ?_, ?_, ?_⟩ <;>
    intro r k hr <;>
    simp [checkLoginRateLimit, checkRegistrationRateLimit,
      checkPasswordResetRateLimit, checkEmailVerificationRateLimit, redisIncr, hr]

/-- C8 counterexample: with a configured but unreachable cache the login
check neither returns true nor swallows the failure — the incr rejection
propagates as an error. -/
theorem checkLoginRateLimit_unreachable_counterexample :
    checkLoginRateLimit (some downRedisW) "10.0.0.1" = .error "Connection is closed" ∧
    exOk (checkLoginRateLimit (some downRedisW) "10.0.0.1") = false := ⟨rfl, rfl⟩

theorem rateLimiter_fail_open_witness :
    checkLoginRateLimit none "10.0.0.1" = .ok (true, none) ∧
    checkRegistrationRateLimit (some downRedisW) "10.0.0.1" = .error "Connection is closed" := by
  exact ⟨rateLimiter_fail_open.1 "10.0.0.1",
         rateLimiter_fail_open.2.2.2.2.2.1 downRedisW "10.0.0.1" rfl⟩

/-- C2: validateAccessToken succeeds only when the JWT verifies
statelessly AND the token hash matches an active, unexpired session row
joined to its user; and after logout revokes the matching sessions the
same access token is rejected at any later time, even though its own exp
may still be in the future. -/
theorem validateAccessToken_hybrid (svc : TokenService) :
    (∀ db nowMs tok u,
       (validateAccessToken svc db nowMs tok).1 = .ok u →
       (∃ p, verifyAccessToken svc (nowMs / 1000) tok = some p) ∧
       ∃ s, s ∈ db.sessions ∧ s.access_token_hash = hashToken tok ∧
         s.is_active = true ∧ nowMs < s.access_token_expires_at ∧ u.id = s.user_id)
  ∧ (∀ db nowMs nowMs2 tok,
       exOk (validateAccessToken svc (logout db nowMs tok) nowMs2 tok).1 = false) := by
  constructor
  · intro db nowMs tok u h
    unfold validateAccessToken at h
    cases hv : verifyAccessToken svc (nowMs / 1000) tok with
    | none => rw [hv] at h; exact absurd h (by simp)
    | some p =>
      simp only [hv] at h
      cases hf : findSessionUser db (fun s =>
          s.access_token_hash == hashToken tok && s.is_active &&
          decide (nowMs < s.access_token_expires_at)) with
      | none => simp only [hf] at h; exact absurd h (by simp)
      | some su =>
        obtain ⟨s0, u0⟩ := su
        simp only [hf] at h
        obtain ⟨hs, hp, hu⟩ := findSessionUser_sound hf
        simp only [Bool.and_eq_true, beq_iff_eq, decide_eq_true_eq] at hp
        have hid := List.find?_some hu
        have huid : u0.id = s0.user_id := by simpa using hid
        cases h
        exact ⟨⟨p, rfl⟩, s0, hs, hp.1.1, hp.1.2, hp.2, huid⟩
  · intro db nowMs nowMs2 tok
    unfold validateAccessToken
    cases hv : verifyAccessToken svc (nowMs2 / 1000) tok with
    | none => simp [exOk]
    | some p =>
      have hnone : findSessionUser (logout db nowMs tok) (fun s =>
          s.access_token_hash == hashToken tok && s.is_active &&
          decide (nowMs2 < s.access_token_expires_at)) = none := by
        unfold findSessionUser logout
        rw [List.findSome?_eq_none_iff]
        intro x hx
        simp only [List.mem_map] at hx
        obtain ⟨s0, _, hgs⟩ := hx
        by_cases hmatch : s0.access_token_hash == hashToken tok
        · rw [if_pos hmatch] at hgs
          rw [if_neg (by rw [← hgs]; simp)]
        · rw [if_neg (by simp only [hmatch]; exact Bool.false_ne_true)] at hgs
          rw [if_neg (by rw [← hgs]; simp only [hmatch]; simp)]
      simp only [hv, hnone]
      simp [exOk]

theorem validateAccessToken_hybrid_witness :
    ((∃ p, verifyAccessToken svcW (1000 / 1000) accessTokW = some p) ∧
     ∃ s, s ∈ dbW.sessions ∧ s.access_token_hash = hashToken accessTokW ∧
       s.is_active = true ∧ 1000 < s.access_token_expires_at ∧ userW.id = s.user_id) ∧
    exOk (validateAccessToken svcW (logout dbW 2000 accessTokW) 3000 accessTokW).1 = false := by
  exact ⟨(validateAccessToken_hybrid svcW).1 dbW 1000 accessTokW userW (by rfl),
         (validateAccessToken_hybrid svcW).2 dbW 2000 3000 accessTokW⟩

/-- C4 (amended): every failed login writes an audit entry whose metadata
carries the specific reason (user_not_found, account_suspended,
invalid_password); the surfaced error is the uniform
"Invalid email or password" for the unknown-user and wrong-password
paths, but the non-active-status path surfaces the distinct message
"Account suspended". -/
theorem loginWithEmail_failure_paths (svc : TokenService) (db : Db) (nowMs : Nat)
    (sessionId email password : String) (ip ua did : Option String) :
    (findUserByEmail db email = none →
       loginWithEmail svc db nowMs sessionId email password ip ua did =
         (.error "Invalid email or password",
          { db with audit_log := db.audit_log ++
             [auditFailure none none "user_not_found" ip ua] }))
  ∧ (∀ u, findUserByEmail db email = some u → u.status ≠ "active" →
       loginWithEmail svc db nowMs sessionId email password ip ua did =
         (.error "Account suspended",
          { db with audit_log := db.audit_log ++
             [auditFailure (some u.tenant_id) (some u.id) "account_suspended" ip ua] }))
  ∧ (∀ u ph, findUserByEmail db email = some u → u.status = "active" →
       u.password_hash = some ph → bcryptCompare password ph = false →
       loginWithEmail svc db nowMs sessionId email password ip ua did =
         (.error "Invalid email or password",
          { db with audit_log := db.audit_log ++
             [auditFailure (some u.tenant_id) (some u.id) "invalid_password" ip ua] })) := by
  refine ⟨?_, ?_, ?_⟩
  · intro h
    unfold loginWithEmail
    simp only [h]
  · intro u hu hs
    unfold loginWithEmail
    simp only [hu, if_pos hs]
  · intro u ph hu hs hph hcmp
    unfold loginWithEmail
    simp only [hu, hs, hph, hcmp]
    simp

def suspendedUserW : UserRow := { userW with id := "u2", status := "suspended" }

def suspendedDbW : Db := { emptyDb with users := [suspendedUserW] }

/-- C4 counterexample: logging in against a suspended account surfaces
the message "Account suspended", not the uniform
"Invalid email or password" the claim requires for every failure path. -/
theorem loginWithEmail_suspended_message_counterexample :
    (loginWithEmail svcW suspendedDbW 0 "s1" "user@example.com" "Sup3r$ecret"
        none none none).1 = .error "Account suspended" ∧
    "Account suspended" ≠ "Invalid email or password" := by
  exact ⟨rfl, by decide⟩

theorem loginWithEmail_failure_paths_witness :
    loginWithEmail svcW emptyDb 0 "s1" "nobody@example.com" "pw" none none none =
      (.error "Invalid email or password",
       { emptyDb with audit_log := emptyDb.audit_log ++
          [auditFailure none none "user_not_found" none none] }) := by
  exact (loginWithEmail_failure_paths svcW emptyDb 0 "s1" "nobody@example.com"
    "pw" none none none).1 rfl

/-- C1 (amended): exchangeForGatewayToken validates the access token only
statelessly, via verifyAccessToken; it mints nothing when that fails, and
whenever that succeeds it mints a 64-character lowercase-hex value stored
with a one-hour expiry — the Session store is never consulted, so a
revoked or store-expired session does not block the exchange while the
JWT itself still verifies. -/
theorem exchangeForGatewayToken_stateless (svc : TokenService) (db : Db)
    (nowMs seed : Nat) (gid : String) (tok : Token) :
    (verifyAccessToken svc (nowMs / 1000) tok = none →
       exchangeForGatewayToken svc db nowMs seed gid tok =
         (.error "Invalid access token", db))
  ∧ (∀ p, verifyAccessToken svc (nowMs / 1000) tok = some p →
       (exchangeForGatewayToken svc db nowMs seed gid tok).1 =
         .ok (randomBytesHex 32 seed, nowMs + 60 * 60 * 1000) ∧
       (exchangeForGatewayToken svc db nowMs seed gid tok).2.gateway_tokens =
         db.gateway_tokens ++
           [{ id := gid, token := randomBytesHex 32 seed, user_id := p.sub,
              tenant_id := p.tenant_id.getD "", expires_at := nowMs + 60 * 60 * 1000,
              revoked_at := none }] ∧
       (randomBytesHex 32 seed).length = 64 ∧
       (randomBytesHex 32 seed).data.all isLowerHexChar = true)
  ∧ (∀ sessions2,
       (exchangeForGatewayToken svc { db with sessions := sessions2 } nowMs seed gid tok).1 =
         (exchangeForGatewayToken svc db nowMs seed gid tok).1) := by
  refine ⟨?_, ?_, ?_⟩
  · intro h
    unfold exchangeForGatewayToken
    simp only [h]
  · intro p h
    unfold exchangeForGatewayToken
    simp only [h]
    refine ⟨trivial, trivial, randomBytesHex_length 32 seed, ?_⟩
    rw [List.all_eq_true]
    exact fun c hc => natToHexFixed_lower_hex (2 * 32) seed c hc
  · intro sessions2
    unfold exchangeForGatewayToken
    cases verifyAccessToken svc (nowMs / 1000) tok <;> rfl

/-- C1 counterexample: with a revoked session whose JWT has not yet
expired, the hybrid validation rejects the access token, yet the exchange
still succeeds and mints a gateway token. -/
theorem exchangeForGatewayToken_accepts_revoked_counterexample :
    exOk (validateAccessToken svcW revokedDbW 1000 accessTokW).1 = false ∧
    exOk (exchangeForGatewayToken svcW revokedDbW 1000 7 "g1" accessTokW).1 = true := by
  exact ⟨rfl, rfl⟩

theorem exchangeForGatewayToken_stateless_witness :
    (exchangeForGatewayToken svcW dbW 1000 7 "g1" accessTokW).1 =
      .ok (randomBytesHex 32 7, 1000 + 60 * 60 * 1000) ∧
    (randomBytesHex 32 7).length = 64 := by
  have h := (exchangeForGatewayToken_stateless svcW dbW 1000 7 "g1" accessTokW).2.1
    (JwtPayload.mk "u1" (some "t1") (some "user@example.com") (some "owner") "access" 0 (some 900))
    rfl
  exact ⟨h.1, h.2.2.1⟩

/-- C7: with valid inputs and a fresh email, any insert failure inside
the registration transaction leaves the store exactly as it was — no
tenant, user or verification-token row persists — and the call errors;
when all three inserts commit, the three rows persist and the
registration succeeds even when the verification email send fails. -/
theorem registerWithEmail_transactional (svc : TokenService) (db : Db)
    (nowMs : Nat) (ids : FreshIds) (oracle : TxStep → Bool) (emailSendFails : Bool)
    (email password : String) (dn : Option String) (ip ua : Option String)
    (hv : isValidEmail email = true) (hp : isValidPassword password = true)
    (hn : db.users.find? (fun u => u.email == strToLower email) = none) :
    ((oracle TxStep.tenantIns || oracle TxStep.userIns || oracle TxStep.tokenIns) = true →
       (registerWithEmail svc db nowMs ids oracle emailSendFails email password dn ip ua).2 = db ∧
       exOk (registerWithEmail svc db nowMs ids oracle emailSendFails email password dn ip ua).1 = false)
  ∧ ((oracle TxStep.tenantIns = false ∧ oracle TxStep.userIns = false ∧
        oracle TxStep.tokenIns = false) →
       ∀ u t a r db1,
         registerWithEmail svc db nowMs ids oracle emailSendFails email password dn ip ua =
           (.ok (u, t, a, r), db1) →
         t ∈ db1.tenants ∧ u ∈ db1.users ∧
         ∃ evt, evt ∈ db1.email_verification_tokens ∧ evt.user_id = u.id ∧
           evt.token = ids.secureToken)
  ∧ ((oracle TxStep.tenantIns = false ∧ oracle TxStep.userIns = false ∧
        oracle TxStep.tokenIns = false) →
       exOk (registerWithEmail svc db nowMs ids oracle true email password dn ip ua).1 = true) := by
  refine ⟨?_, ?_, ?_⟩
  · intro hor
    unfold registerWithEmail
    simp only [hv, hp, hn, Bool.not_true, Bool.false_eq_true, if_false,
      Option.isSome_none]
    cases h1 : oracle TxStep.tenantIns with
    | true => simp [exOk]
    | false =>
      cases h2 : oracle TxStep.userIns with
      | true => simp [exOk]
      | false =>
        cases h3 : oracle TxStep.tokenIns with
        | true => simp [exOk]
        | false => rw [h1, h2, h3] at hor; simp at hor
  · rintro ⟨h1, h2, h3⟩ u t a r db1 hrun
    cases emailSendFails <;>
    · unfold registerWithEmail at hrun
      simp only [hv, hp, hn, h1, h2, h3, Bool.not_true, Bool.false_eq_true, if_false,
        Option.isSome_none, createSession] at hrun
      simp only [Prod.mk.injEq, Except.ok.injEq] at hrun
      obtain ⟨⟨hu, ht, ha, hr⟩, hdb⟩ := hrun
      subst hu
      subst ht
      subst hdb
      exact ⟨by simp, by simp,
        ⟨{ user_id := ids.userId, token := ids.secureToken, email := email,
           expires_at := nowMs + 24 * 60 * 60 * 1000, used_at := none },
         by simp, rfl, rfl⟩⟩
  · rintro ⟨h1, h2, h3⟩
    unfold registerWithEmail
    simp only [hv, hp, hn, h1, h2, h3, Bool.not_true, Bool.false_eq_true, if_false,
      Option.isSome_none, createSession]
    simp [exOk]

def freshIdsW : FreshIds :=
  { tenantId := "t9", userId := "u9", sessionId := "s9", slugRand := "abcd1234",
    secureToken := "tok9" }

theorem registerWithEmail_transactional_witness :
    ((registerWithEmail svcW emptyDb 0 freshIdsW (fun s => s == TxStep.userIns) false
        "new@example.com" "Sup3r$ecret1" none none none).2 = emptyDb ∧
     exOk (registerWithEmail svcW emptyDb 0 freshIdsW (fun s => s == TxStep.userIns) false
        "new@example.com" "Sup3r$ecret1" none none none).1 = false) ∧
    exOk (registerWithEmail svcW emptyDb 0 freshIdsW (fun _ => false) true
        "new@example.com" "Sup3r$ecret1" none none none).1 = true := by
  refine ⟨(registerWithEmail_transactional svcW emptyDb 0 freshIdsW
      (fun s => s == TxStep.userIns) false "new@example.com" "Sup3r$ecret1" none none none
      (by decide) (by decide) rfl).1 (by decide), ?_⟩
  exact (registerWithEmail_transactional svcW emptyDb 0 freshIdsW
      (fun _ => false) true "new@example.com" "Sup3r$ecret1" none none none
      (by decide) (by decide) rfl).2.2 ⟨rfl, rfl, rfl⟩

/-- C5 (amended): after a successful refresh, the matched session's
stored refresh_token_hash is overwritten with the hash of the newly
minted refresh token; provided the presented token's hash identified a
unique session row and the re-minted refresh JWT is not byte-identical to
the presented one (it is identical exactly when the rotation happens in
the same whole second as the presented token's iat with the same claims),
no active session matches the old hash any more and a subsequent refresh
presenting the old token fails at any time. -/
theorem refreshAccessToken_rotation (svc : TokenService) (db : Db) (nowMs : Nat)
    (tok aN rN : Token) (db1 : Db)
    (hrun : refreshAccessToken svc db nowMs tok = (.ok (aN, rN), db1))
    (huniq : ∀ r1, r1 ∈ db.sessions → ∀ r2, r2 ∈ db.sessions →
        r1.refresh_token_hash = hashToken tok → r2.refresh_token_hash = hashToken tok →
        r1 = r2)
    (hne : rN ≠ tok) :
    (∀ s, s ∈ db1.sessions → s.is_active = true → s.refresh_token_hash ≠ hashToken tok)
  ∧ (∀ nowMs2, exOk (refreshAccessToken svc db1 nowMs2 tok).1 = false) := by
  unfold refreshAccessToken at hrun
  cases hf : findSessionUser db (fun s =>
      s.refresh_token_hash == hashToken tok && s.is_active &&
      decide (nowMs < s.refresh_token_expires_at)) with
  | none => simp only [hf] at hrun; exact absurd hrun (by simp)
  | some su =>
    obtain ⟨s0, u0⟩ := su
    simp only [hf, Prod.mk.injEq, Except.ok.injEq] at hrun
    obtain ⟨⟨haN, hrN⟩, hdb1⟩ := hrun
    obtain ⟨hs0mem, hp0, _⟩ := findSessionUser_sound hf
    simp only [Bool.and_eq_true, beq_iff_eq, decide_eq_true_eq] at hp0
    have hmain : ∀ s, s ∈ db1.sessions → s.is_active = true →
        s.refresh_token_hash ≠ hashToken tok := by
      intro s hs hact
      rw [← hdb1] at hs
      simp only [List.mem_map] at hs
      obtain ⟨r0, hr0mem, hr0⟩ := hs
      by_cases hid : r0.id == s0.id
      · rw [if_pos hid] at hr0
        rw [← hr0]
        simp only
        intro hcontra
        have : generateRefreshToken svc u0 (nowMs / 1000) = tok := by
          have := congrArg TokenHash.preimage hcontra
          simpa [hashToken] using this
        rw [← hrN] at hne
        exact hne this
      · rw [if_neg (by simpa using hid)] at hr0
        rw [← hr0]
        intro hcontra
        have heq := huniq r0 hr0mem s0 hs0mem hcontra hp0.1.1
        rw [heq] at hid
        simp at hid
    refine ⟨hmain, ?_⟩
    intro nowMs2
    unfold refreshAccessToken
    have hnone : findSessionUser db1 (fun s =>
        s.refresh_token_hash == hashToken tok && s.is_active &&
        decide (nowMs2 < s.refresh_token_expires_at)) = none := by
      unfold findSessionUser
      rw [List.findSome?_eq_none_iff]
      intro x hx
      rw [if_neg]
      intro hpx
      simp only [Bool.and_eq_true, beq_iff_eq, decide_eq_true_eq] at hpx
      exact hmain x hx hpx.1.2 hpx.1.1
    simp only [hnone]
    rfl

/-- C5 counterexample: a rotation performed in the same whole second as
the presented refresh token's iat re-mints the byte-identical refresh
JWT, so the stored hash is unchanged and the old token still refreshes
successfully afterwards — the claim's "every subsequent call fails" does
not hold unconditionally. -/
theorem refreshAccessToken_same_second_counterexample :
    exOk (refreshAccessToken svcW dbW 0 refreshTokW).1 = true ∧
    exOk ((refreshAccessToken svcW (refreshAccessToken svcW dbW 0 refreshTokW).2
      0 refreshTokW).1) = true := ⟨rfl, rfl⟩

theorem refreshAccessToken_rotation_witness :
    exOk ((refreshAccessToken svcW (refreshAccessToken svcW dbW 10000 refreshTokW).2
      20000 refreshTokW).1) = false := by
  have h := refreshAccessToken_rotation svcW dbW 10000 refreshTokW
    (generateAccessToken svcW userW 10) (generateRefreshToken svcW userW 10)
    (refreshAccessToken svcW dbW 10000 refreshTokW).2
    rfl
    (by
      intro r1 h1 r2 h2 hh1 hh2
      simp only [dbW, sessW, emptyDb, List.mem_singleton] at h1 h2
      rw [h1, h2])
    (by decide)
  exact h.2 20000

/-- The identifying fields of a provider-link row: a link is "the same
link" when provider, subject and linked user agree. -/
def linkKey (l : OAuthLinkRow) : String × String × String :=
  (l.provider, l.provider_user_id, l.user_id)

theorem find?_map_pred {α : Type} (g : α → α) (p : α → Bool) (l : List α)
    (h : ∀ x, p (g x) = p x) : (l.map g).find? p = (l.find? p).map g := by
  induction l with
  | nil => rfl
  | cons x xs ih =>
    simp only [List.map_cons, List.find?, h x]
    cases hp : p x with
    | true => rfl
    | false => exact ih

theorem loginExistingOAuthUser_spec {svc : TokenService} {db : Db} {nowMs : Nat}
    {sid uid prov : String} {u : UserRow} {t : TenantRow} {a r : Token} {db1 : Db}
    (h : loginExistingOAuthUser svc db nowMs sid uid prov = (.ok (u, t, a, r), db1)) :
    db.users.find? (fun x => x.id == uid) = some u ∧
    db.tenants.find? (fun x => x.id == u.tenant_id) = some t ∧
    db1.tenants = db.tenants ∧ db1.users = db.users ∧
    db1.oauth_links.map linkKey = db.oauth_links.map linkKey := by
  unfold loginExistingOAuthUser at h
  cases hu : db.users.find? (fun x => x.id == uid) with
  | none => simp only [hu] at h; exact absurd h (by simp)
  | some u0 =>
    simp only [hu] at h
    cases ht : db.tenants.find? (fun x => x.id == u0.tenant_id) with
    | none => simp only [ht] at h; exact absurd h (by simp)
    | some t0 =>
      simp only [ht, createSession, Prod.mk.injEq, Except.ok.injEq] at h
      obtain ⟨⟨h1, h2, _, _⟩, hdb⟩ := h
      subst h1
      subst h2
      subst hdb
      refine ⟨rfl, ht, rfl, rfl, ?_⟩
      simp only
      rw [List.map_map]
      refine List.map_congr_left ?_
      intro x _
      by_cases hc : x.user_id == uid && x.provider == prov
      · simp [hc, linkKey, Function.comp]
      · simp [hc, Function.comp]

theorem loginExistingOAuthUser_eval {svc : TokenService} {db : Db} {nowMs : Nat}
    {sid uid prov : String} {u : UserRow} {t : TenantRow}
    (hu : db.users.find? (fun x => x.id == uid) = some u)
    (ht : db.tenants.find? (fun x => x.id == u.tenant_id) = some t) :
    (loginExistingOAuthUser svc db nowMs sid uid prov).1 =
      .ok (u, t, generateAccessToken svc u (nowMs / 1000),
           generateRefreshToken svc u (nowMs / 1000)) := by
  unfold loginExistingOAuthUser
  simp only [hu, ht]
  rfl

theorem registerWithOAuth_linkCase {svc : TokenService} {db : Db} {nowMs : Nat}
    {ids : FreshIds} {provider puid : String} {pun pe pn : Option String}
    {link : OAuthLinkRow} (hl : findLink db provider puid = some link) :
    registerWithOAuth svc db nowMs ids provider puid pun pe pn =
      loginExistingOAuthUser svc db nowMs ids.sessionId link.user_id provider := by
  unfold registerWithOAuth
  rw [hl]

theorem registerWithOAuth_emailCase {svc : TokenService} {db : Db} {nowMs : Nat}
    {ids : FreshIds} {provider puid : String} {pun pe pn : Option String}
    {u0 u : UserRow} {t : TenantRow} {a r : Token} {db1 : Db}
    (hl : findLink db provider puid = none) (he : oauthEmailUser db pe = some u0)
    (hrun : registerWithOAuth svc db nowMs ids provider puid pun pe pn =
      (.ok (u, t, a, r), db1)) :
    u = u0 ∧ t.id = u0.tenant_id ∧
    db.tenants.find? (fun x => x.id == u0.tenant_id) = some t ∧
    db1.tenants = db.tenants ∧ db1.users = db.users ∧
    db1.oauth_links = db.oauth_links ++
      [{ user_id := u0.id, provider := provider, provider_user_id := puid,
         provider_username := pun, provider_email := pe, profile_name := pn,
         last_used_at := none }] := by
  unfold registerWithOAuth at hrun
  simp only [hl, he] at hrun
  cases ht : db.tenants.find? (fun x => x.id == u0.tenant_id) with
  | none => simp only [ht] at hrun; exact absurd hrun (by simp)
  | some t0 =>
    simp only [ht, createSession, Prod.mk.injEq, Except.ok.injEq] at hrun
    obtain ⟨⟨h1, h2, _, _⟩, hdb⟩ := hrun
    subst h1
    subst h2
    subst hdb
    have htid := List.find?_some ht
    refine ⟨rfl, by simpa using htid, rfl, rfl, rfl, rfl⟩

theorem registerWithOAuth_newCase {svc : TokenService} {db : Db} {nowMs : Nat}
    {ids : FreshIds} {provider puid : String} {pun pe pn : Option String}
    {u : UserRow} {t : TenantRow} {a r : Token} {db1 : Db}
    (hl : findLink db provider puid = none) (he : oauthEmailUser db pe = none)
    (hrun : registerWithOAuth svc db nowMs ids provider puid pun pe pn =
      (.ok (u, t, a, r), db1)) :
    u.id = ids.userId ∧ u.tenant_id = ids.tenantId ∧ t.id = ids.tenantId ∧
    u.email_verified = pe.isSome ∧
    db1.tenants = db.tenants ++ [t] ∧ db1.users = db.users ++ [u] ∧
    db1.oauth_links = db.oauth_links ++
      [{ user_id := u.id, provider := provider, provider_user_id := puid,
         provider_username := pun, provider_email := pe, profile_name := pn,
         last_used_at := none }] := by
  unfold registerWithOAuth at hrun
  simp only [hl, he, createSession, Prod.mk.injEq, Except.ok.injEq] at hrun
  obtain ⟨⟨h1, h2, _, _⟩, hdb⟩ := hrun
  subst h1
  subst h2
  subst hdb
  exact ⟨rfl, rfl, rfl, rfl, rfl, rfl, rfl⟩

theorem find?_respects_key {α κ : Type} (key : α → κ) (p : α → Bool)
    (hp : ∀ x y, key x = key y → p x = p y) :
    ∀ (l1 l2 : List α), l1.map key = l2.map key →
      (l1.find? p).map key = (l2.find? p).map key := by
  intro l1
  induction l1 with
  | nil =>
    intro l2 h
    cases l2 with
    | nil => rfl
    | cons b bs => simp at h
  | cons a as ih =>
    intro l2 h
    cases l2 with
    | nil => simp at h
    | cons b bs =>
      simp only [List.map_cons, List.cons.injEq] at h
      obtain ⟨hkey, htail⟩ := h
      simp only [List.find?]
      rw [show p b = p a from (hp a b hkey).symm]
      cases hpa : p a with
      | true => simpa using hkey
      | false => exact ih bs htail

/-- C9: registerWithOAuth applies the three-step precedence in order —
(1) an existing (provider, provider_user_id) link logs in that link's
user and creates neither tenant nor user nor link; (2) otherwise a user
matching the provider-asserted email gets the provider linked to it and
no second tenant; (3) otherwise a fresh tenant and user are created with
the email marked verified exactly when the provider asserted one — and a
second OAuth login with the same provider and subject returns the same
user id and tenant id as the first (given id-unique user rows and fresh
ids for the first call). -/
theorem registerWithOAuth_precedence (svc : TokenService) (db : Db) (nowMs : Nat)
    (ids : FreshIds) (provider puid : String) (pun pe pn : Option String) :
    (∀ link, findLink db provider puid = some link →
      ∀ u t a r db1,
        registerWithOAuth svc db nowMs ids provider puid pun pe pn =
          (.ok (u, t, a, r), db1) →
        u.id = link.user_id ∧ t.id = u.tenant_id ∧
        db1.tenants = db.tenants ∧ db1.users = db.users ∧
        db1.oauth_links.map linkKey = db.oauth_links.map linkKey)
  ∧ (findLink db provider puid = none →
      ∀ u0, oauthEmailUser db pe = some u0 →
      ∀ u t a r db1,
        registerWithOAuth svc db nowMs ids provider puid pun pe pn =
          (.ok (u, t, a, r), db1) →
        u = u0 ∧ t.id = u0.tenant_id ∧
        db1.tenants = db.tenants ∧ db1.users = db.users ∧
        ∃ l, db1.oauth_links = db.oauth_links ++ [l] ∧ l.user_id = u0.id ∧
          l.provider = provider ∧ l.provider_user_id = puid)
  ∧ (findLink db provider puid = none →
      oauthEmailUser db pe = none →
      ∀ u t a r db1,
        registerWithOAuth svc db nowMs ids provider puid pun pe pn =
          (.ok (u, t, a, r), db1) →
        u.email_verified = pe.isSome ∧ u.tenant_id = t.id ∧
        db1.tenants = db.tenants ++ [t] ∧ db1.users = db.users ++ [u] ∧
        ∃ l, db1.oauth_links = db.oauth_links ++ [l] ∧ l.user_id = u.id ∧
          l.provider = provider ∧ l.provider_user_id = puid)
  ∧ (∀ u t a r db1,
      registerWithOAuth svc db nowMs ids provider puid pun pe pn =
        (.ok (u, t, a, r), db1) →
      (∀ x, x ∈ db.users → ∀ y, y ∈ db.users → x.id = y.id → x = y) →
      (∀ x, x ∈ db.users → x.id ≠ ids.userId) →
      (∀ x, x ∈ db.tenants → x.id ≠ ids.tenantId) →
      ∀ ids2 pun2 pe2 pn2 now2 u2 t2 a2 r2 db2,
        registerWithOAuth svc db1 now2 ids2 provider puid pun2 pe2 pn2 =
          (.ok (u2, t2, a2, r2), db2) →
        u2.id = u.id ∧ t2.id = t.id) := by
  have linkPredKey : ∀ x y : OAuthLinkRow, linkKey x = linkKey y →
      (x.provider == provider && x.provider_user_id == puid) =
      (y.provider == provider && y.provider_user_id == puid) := by
    intro x y hxy
    simp only [linkKey, Prod.mk.injEq] at hxy
    rw [hxy.1, hxy.2.1]
  refine ⟨?_, ?_, ?_, ?_⟩
  · intro link hl u t a r db1 hrun
    rw [registerWithOAuth_linkCase hl] at hrun
    obtain ⟨hu, ht, htens, husers, hlk⟩ := loginExistingOAuthUser_spec hrun
    have huid := List.find?_some hu
    have htid := List.find?_some ht
    exact ⟨by simpa using huid, by simpa using htid, htens, husers, hlk⟩
  · intro hl u0 he u t a r db1 hrun
    obtain ⟨hu, htid, _, htens, husers, hlinks⟩ :=
      registerWithOAuth_emailCase hl he hrun
    exact ⟨hu, htid, htens, husers, ⟨_, hlinks, rfl, rfl, rfl⟩⟩
  · intro hl he u t a r db1 hrun
    obtain ⟨_, hutid, htid, hver, htens, husers, hlinks⟩ :=
      registerWithOAuth_newCase hl he hrun
    exact ⟨hver, by rw [hutid, htid], htens, husers, ⟨_, hlinks, rfl, rfl, rfl⟩⟩
  · intro u t a r db1 hrun huniqid hfreshu hfresht
      ids2 pun2 pe2 pn2 now2 u2 t2 a2 r2 db2 hrun2
    cases hl : findLink db provider puid with
    | some link =>
      rw [registerWithOAuth_linkCase hl] at hrun
      obtain ⟨hu, ht, htens, husers, hlk⟩ := loginExistingOAuthUser_spec hrun
      have hmapped := find?_respects_key linkKey
        (fun l => l.provider == provider && l.provider_user_id == puid)
        linkPredKey db1.oauth_links db.oauth_links hlk
      rw [show db.oauth_links.find?
            (fun l => l.provider == provider && l.provider_user_id == puid) = some link
          from hl] at hmapped
      obtain ⟨link2, hlink2, hkeyeq⟩ := Option.map_eq_some'.mp hmapped
      have huid2 : link2.user_id = link.user_id := by
        simp only [linkKey, Prod.mk.injEq] at hkeyeq
        exact hkeyeq.2.2
      rw [registerWithOAuth_linkCase hlink2] at hrun2
      obtain ⟨hu2, ht2, _, _, _⟩ := loginExistingOAuthUser_spec hrun2
      rw [husers, huid2, hu] at hu2
      have hu2u : u = u2 := Option.some_inj.mp hu2
      subst hu2u
      rw [htens, ht] at ht2
      have ht2t : t = t2 := Option.some_inj.mp ht2
      subst ht2t
      exact ⟨rfl, rfl⟩
    | none =>
      cases he : oauthEmailUser db pe with
      | some u0 =>
        obtain ⟨huu0, htid, ht, htens, husers, hlinks⟩ :=
          registerWithOAuth_emailCase hl he hrun
        subst huu0
        have hlink2 : findLink db1 provider puid = some
            { user_id := u.id, provider := provider, provider_user_id := puid,
              provider_username := pun, provider_email := pe, profile_name := pn,
              last_used_at := none } := by
          unfold findLink at hl ⊢
          rw [hlinks, List.find?_append, hl]
          simp [List.find?]
        rw [registerWithOAuth_linkCase hlink2] at hrun2
        obtain ⟨hu2, ht2, _, _, _⟩ := loginExistingOAuthUser_spec hrun2
        have humem : u ∈ db.users := by
          unfold oauthEmailUser at he
          cases pe with
          | none => simp at he
          | some e => exact List.mem_of_find?_eq_some he
        have hufind : db.users.find? (fun x => x.id == u.id) = some u := by
          refine find?_eq_some_of_unique humem (by simp) ?_
          intro b hb hpb
          exact huniqid b hb u humem (by simpa using hpb)
        rw [husers] at hu2
        simp only at hu2
        rw [hufind] at hu2
        have hu2u : u = u2 := Option.some_inj.mp hu2
        subst hu2u
        rw [htens, ht] at ht2
        have ht2t : t = t2 := Option.some_inj.mp ht2
        subst ht2t
        exact ⟨rfl, rfl⟩
      | none =>
        obtain ⟨huid, hutid, htid, _, htens, husers, hlinks⟩ :=
          registerWithOAuth_newCase hl he hrun
        have hlink2 : findLink db1 provider puid = some
            { user_id := u.id, provider := provider, provider_user_id := puid,
              provider_username := pun, provider_email := pe, profile_name := pn,
              last_used_at := none } := by
          unfold findLink at hl ⊢
          rw [hlinks, List.find?_append, hl]
          simp [List.find?]
        rw [registerWithOAuth_linkCase hlink2] at hrun2
        obtain ⟨hu2, ht2, _, _, _⟩ := loginExistingOAuthUser_spec hrun2
        have hufind : db1.users.find? (fun x => x.id == u.id) = some u := by
          rw [husers, List.find?_append]
          have hold : db.users.find? (fun x => x.id == u.id) = none := by
            rw [List.find?_eq_none]
            intro x hx
            simp only [beq_iff_eq]
            rw [huid]
            exact hfreshu x hx
          rw [hold]
          simp [List.find?]
        simp only at hu2
        rw [hufind] at hu2
        have hu2u : u = u2 := Option.some_inj.mp hu2
        subst hu2u
        have htfind : db1.tenants.find? (fun x => x.id == u.tenant_id) = some t := by
          rw [htens, List.find?_append]
          have hold : db.tenants.find? (fun x => x.id == u.tenant_id) = none := by
            rw [List.find?_eq_none]
            intro x hx
            simp only [beq_iff_eq]
            rw [hutid]
            exact hfresht x hx
          rw [hold]
          simp [List.find?, htid, hutid]
        rw [htfind] at ht2
        have ht2t : t = t2 := Option.some_inj.mp ht2
        subst ht2t
        exact ⟨rfl, rfl⟩

def linkW : OAuthLinkRow :=
  { user_id := "u1", provider := "google", provider_user_id := "sub1",
    provider_username := none, provider_email := none, profile_name := none,
    last_used_at := none }

def oauthDbW : Db :=
  { emptyDb with tenants := [tenantW], users := [userW], oauth_links := [linkW] }

theorem registerWithOAuth_precedence_witness :
    userW.id = linkW.user_id ∧ tenantW.id = userW.tenant_id ∧
    (registerWithOAuth svcW oauthDbW 0 freshIdsW "google" "sub1" none none none).2.tenants =
      oauthDbW.tenants ∧
    (registerWithOAuth svcW oauthDbW 0 freshIdsW "google" "sub1" none none none).2.users =
      oauthDbW.users ∧
    (registerWithOAuth svcW oauthDbW 0 freshIdsW "google" "sub1" none none
        none).2.oauth_links.map linkKey =
      oauthDbW.oauth_links.map linkKey := by
  exact (registerWithOAuth_precedence svcW oauthDbW 0 freshIdsW "google" "sub1"
      none none none).1 linkW rfl userW tenantW
      (generateAccessToken svcW userW 0) (generateRefreshToken svcW userW 0)
      (registerWithOAuth svcW oauthDbW 0 freshIdsW "google" "sub1" none none none).2
      rfl
